import Mathlib

/-! # GridFlex decision engine: shallow embedding

Embedding of the decision engine of `src/backend/agents/orchestrator_agent.py`
and the market-condition classifier of `src/backend/agents/grid_agent.py`.
Python floats are modelled as rationals (`ℚ`); Python `round(x, 2)` is
modelled as rounding to the nearest multiple of `1/100` with ties to even
(`roundTo2`); wall-clock quantities (the `now` timestamp, measured in hours,
and the decision latency, measured in milliseconds) are explicit parameters
of the decision step, since the engine only ever combines them arithmetically.
-/

namespace GridFlex

/-- Action enum of `OptimizationAction` (orchestrator_agent.py lines 32-37). -/
inductive OptimizationAction where
  | execute_now
  | defer
  | shift_region
  | cancel
deriving DecidableEq, Repr

/-- Rationale enum of `DecisionRationale` (orchestrator_agent.py lines 40-47). -/
inductive DecisionRationale where
  | optimal_conditions
  | high_carbon
  | high_price
  | sla_critical
  | forecast_better
  | no_benefit
deriving DecidableEq, Repr

/-- A job as read by `make_optimization_decision` from the job dict:
`job_id`, `energy_required_kwh`, `deferrable`, `max_deferral_hours`,
`priority` (a string in the source; compared against "critical"). -/
structure Job where
  job_id : String
  energy_required_kwh : ℚ
  deferrable : Bool
  max_deferral_hours : ℚ
  priority : String
deriving DecidableEq, Repr

/-- Grid conditions as read from the grid_data dict: `carbon_intensity`,
`energy_price`, optional `forecast_next_hour`. -/
structure GridData where
  carbon_intensity : ℚ
  energy_price : ℚ
  forecast_next_hour : Option ℚ
deriving DecidableEq, Repr

/-- `OptimizationDecision` (orchestrator_agent.py lines 50-62); the
`decision_id`, `timestamp` and free-text `explanation` fields are omitted
(uuid / wall clock / prose). `defer_until` is a timestamp in hours. -/
structure OptimizationDecision where
  job_id : String
  action : OptimizationAction
  rationale : DecisionRationale
  current_carbon_intensity : ℚ
  current_energy_price : ℚ
  estimated_cost_savings_gbp : ℚ
  estimated_carbon_reduction_gco2 : ℚ
  defer_until : Option ℚ
deriving DecidableEq, Repr

/-- `OrchestratorMetrics` (orchestrator_agent.py lines 83-92). -/
structure OrchestratorMetrics where
  total_decisions_made : ℕ
  jobs_executed_immediately : ℕ
  jobs_deferred : ℕ
  jobs_shifted : ℕ
  total_cost_saved_gbp : ℚ
  total_carbon_reduced_kgco2 : ℚ
  avg_decision_time_ms : ℚ
  sla_compliance_rate : ℚ
deriving DecidableEq, Repr

/-- The metrics a fresh `OrchestratorMetrics()` carries: zero counters and a
100.0 compliance rate. -/
def initMetrics : OrchestratorMetrics :=
  { total_decisions_made := 0
    jobs_executed_immediately := 0
    jobs_deferred := 0
    jobs_shifted := 0
    total_cost_saved_gbp := 0
    total_carbon_reduced_kgco2 := 0
    avg_decision_time_ms := 0
    sla_compliance_rate := 100 }

/-- Engine configuration: the constructor arguments of `OrchestratorAgent`
(carbon_threshold, price_threshold, sla_response_minutes). -/
structure AgentConfig where
  carbon_threshold : ℚ
  price_threshold : ℚ
  sla_response_minutes : ℚ
deriving DecidableEq, Repr

/-- Mutable state of an `OrchestratorAgent`: the decision history log and the
metrics aggregate. -/
structure AgentState where
  decision_history : List OptimizationDecision
  metrics : OrchestratorMetrics
deriving DecidableEq, Repr

/-- State of a freshly constructed agent: empty history, initial metrics. -/
def initialState : AgentState :=
  { decision_history := [], metrics := initMetrics }

/-- Round a rational to the nearest integer, ties to even (the ideal
semantics of Python round on exact values). -/
def roundHalfEven (q : ℚ) : ℤ :=
  if q - ⌊q⌋ = 1/2 then (if 2 ∣ ⌊q⌋ then ⌊q⌋ else ⌊q⌋ + 1) else round q

/-- Python `round(x, 2)`: round to the nearest multiple of 1/100. -/
def roundTo2 (q : ℚ) : ℚ :=
  (roundHalfEven (q * 100) : ℚ) / 100

/-- `calculate_cost_savings` (orchestrator_agent.py lines 150-171):
`max(0, round(energy*current - energy*optimal, 2))`. -/
def calculate_cost_savings (energy_kwh current_price optimal_price : ℚ) : ℚ :=
  max 0 (roundTo2 (energy_kwh * current_price - energy_kwh * optimal_price))

/-- `calculate_carbon_reduction` (orchestrator_agent.py lines 173-194):
`max(0, round(energy*current - energy*optimal, 2))`. -/
def calculate_carbon_reduction (energy_kwh current_carbon optimal_carbon : ℚ) : ℚ :=
  max 0 (roundTo2 (energy_kwh * current_carbon - energy_kwh * optimal_carbon))

/-- The five-rule decision cascade of `make_optimization_decision`
(orchestrator_agent.py lines 263-368), producing the decision and the
branch-local metrics updates (executed/deferred tallies, cumulative savings).
The optimal-window carbon of rule 3 reflects the Python truthiness test
`forecast_carbon if forecast_carbon else current_carbon * 0.5`: a forecast
that is `None` or exactly 0 falls back to `current_carbon * 0.5`. -/
def decideCore (cfg : AgentConfig) (m : OrchestratorMetrics) (job : Job)
    (grid : GridData) (now : ℚ) : OptimizationDecision × OrchestratorMetrics :=
  if job.deferrable = false ∨ job.priority = "critical" then
    ({ job_id := job.job_id
       action := OptimizationAction.execute_now
       rationale := DecisionRationale.sla_critical
       current_carbon_intensity := grid.carbon_intensity
       current_energy_price := grid.energy_price
       estimated_cost_savings_gbp := 0
       estimated_carbon_reduction_gco2 := 0
       defer_until := none },
     { m with jobs_executed_immediately := m.jobs_executed_immediately + 1 })
  else if grid.carbon_intensity ≤ cfg.carbon_threshold ∧
      grid.energy_price ≤ cfg.price_threshold then
    ({ job_id := job.job_id
       action := OptimizationAction.execute_now
       rationale := DecisionRationale.optimal_conditions
       current_carbon_intensity := grid.carbon_intensity
       current_energy_price := grid.energy_price
       estimated_cost_savings_gbp := 0
       estimated_carbon_reduction_gco2 := 0
       defer_until := none },
     { m with jobs_executed_immediately := m.jobs_executed_immediately + 1 })
  else if grid.carbon_intensity > cfg.carbon_threshold ∧ job.deferrable then
    let optimal_carbon : ℚ :=
      match grid.forecast_next_hour with
      | some f => if f = 0 then grid.carbon_intensity * (1/2) else f
      | none => grid.carbon_intensity * (1/2)
    let optimal_price : ℚ := grid.energy_price * (7/10)
    let cost_savings :=
      calculate_cost_savings job.energy_required_kwh grid.energy_price optimal_price
    let carbon_reduction :=
      calculate_carbon_reduction job.energy_required_kwh grid.carbon_intensity optimal_carbon
    ({ job_id := job.job_id
       action := OptimizationAction.defer
       rationale := DecisionRationale.high_carbon
       current_carbon_intensity := grid.carbon_intensity
       current_energy_price := grid.energy_price
       estimated_cost_savings_gbp := cost_savings
       estimated_carbon_reduction_gco2 := carbon_reduction
       defer_until := some (now + min 6 job.max_deferral_hours) },
     { m with jobs_deferred := m.jobs_deferred + 1
              total_cost_saved_gbp := m.total_cost_saved_gbp + cost_savings
              total_carbon_reduced_kgco2 :=
                m.total_carbon_reduced_kgco2 + carbon_reduction / 1000 })
  else if grid.energy_price > cfg.price_threshold ∧ job.deferrable then
    let optimal_carbon : ℚ := grid.carbon_intensity * (4/5)
    let optimal_price : ℚ := cfg.price_threshold * (7/10)
    let cost_savings :=
      calculate_cost_savings job.energy_required_kwh grid.energy_price optimal_price
    let carbon_reduction :=
      calculate_carbon_reduction job.energy_required_kwh grid.carbon_intensity optimal_carbon
    ({ job_id := job.job_id
       action := OptimizationAction.defer
       rationale := DecisionRationale.high_price
       current_carbon_intensity := grid.carbon_intensity
       current_energy_price := grid.energy_price
       estimated_cost_savings_gbp := cost_savings
       estimated_carbon_reduction_gco2 := carbon_reduction
       defer_until := some (now + min 4 job.max_deferral_hours) },
     { m with jobs_deferred := m.jobs_deferred + 1
              total_cost_saved_gbp := m.total_cost_saved_gbp + cost_savings
              total_carbon_reduced_kgco2 :=
                m.total_carbon_reduced_kgco2 + carbon_reduction / 1000 })
  else
    ({ job_id := job.job_id
       action := OptimizationAction.execute_now
       rationale := DecisionRationale.no_benefit
       current_carbon_intensity := grid.carbon_intensity
       current_energy_price := grid.energy_price
       estimated_cost_savings_gbp := 0
       estimated_carbon_reduction_gco2 := 0
       defer_until := none },
     { m with jobs_executed_immediately := m.jobs_executed_immediately + 1 })

/-- `make_optimization_decision` (orchestrator_agent.py lines 223-391): the
rule cascade followed by the common metrics updates of lines 370-391
(decision counter, incremental mean of latency, the compliance-rate update
performed only when the latency breaches the SLA budget) and the history
append. `decision_time_ms` is the measured latency of this decision. -/
def make_optimization_decision (cfg : AgentConfig) (st : AgentState) (job : Job)
    (grid : GridData) (now decision_time_ms : ℚ) :
    OptimizationDecision × AgentState :=
  let r := decideCore cfg st.metrics job grid now
  let n : ℕ := r.2.total_decisions_made + 1
  let m2 := { r.2 with
    total_decisions_made := n
    avg_decision_time_ms :=
      (r.2.avg_decision_time_ms * ((n : ℚ) - 1) + decision_time_ms) / (n : ℚ) }
  let m3 :=
    if decision_time_ms / 1000 / 60 > cfg.sla_response_minutes then
      { m2 with sla_compliance_rate :=
          (m2.sla_compliance_rate * ((n : ℚ) - 1) + 0) / (n : ℚ) }
    else m2
  (r.1, { decision_history := st.decision_history ++ [r.1], metrics := m3 })

/-- One decide call's inputs: the job, the grid snapshot, the current time
(hours) and the measured decision latency (milliseconds). -/
structure StepInput where
  job : Job
  grid : GridData
  now : ℚ
  latency_ms : ℚ

/-- A sequence of decide calls folded over the agent state, as a driver
(e.g. `optimize_job_queue`) performs them. -/
def runDecisions (cfg : AgentConfig) (st : AgentState) (l : List StepInput) :
    AgentState :=
  l.foldl
    (fun s i => (make_optimization_decision cfg s i.job i.grid i.now i.latency_ms).2)
    st

/-- Number of decisions in a log whose action is `defer`. -/
def deferCount (l : List OptimizationDecision) : ℕ :=
  l.countP (fun d => d.action = OptimizationAction.defer)

/-- `get_recent_decisions` (orchestrator_agent.py lines 515-537): the Python
slice `decision_history[-limit:]` keeps the last `limit` elements when
`limit ≥ 1`, but `[-0:]` is `[0:]` and keeps the whole list when
`limit = 0`; the kept elements are then reversed (most recent first). -/
def get_recent_decisions (history : List OptimizationDecision) (limit : ℕ) :
    List OptimizationDecision :=
  (if limit = 0 then history else history.drop (history.length - limit)).reverse

/-- Result dict of `calculate_p415_flexibility_value` (orchestrator_agent.py
lines 493-503); the `settlement_period` timestamp string is omitted. -/
structure P415Result where
  service_type : String
  capacity_offered_mw : ℚ
  revenue_gbp_per_hour : ℚ
  clearing_price_gbp_mw_h : ℚ
  response_time_seconds : ℚ
  p415_compliant : Bool
  grid_carbon_intensity : ℚ
  deferred_jobs_count : ℕ
deriving DecidableEq, Repr

/-- `calculate_p415_flexibility_value` (orchestrator_agent.py lines 439-513):
capacity = Σ energy / 1000, service band by carbon intensity
(>200 Dynamic Moderation at 17.50, <100 Demand Turn Up at 12.00, otherwise
Dynamic Containment at 9.50), revenue = capacity × clearing price; the
reported capacity and revenue are rounded to 2 decimals. -/
def calculate_p415_flexibility_value (deferred_jobs : List Job)
    (grid_conditions : GridData) : P415Result :=
  let total_capacity_mw :=
    (deferred_jobs.map (fun j => j.energy_required_kwh)).sum / 1000
  let carbon_intensity := grid_conditions.carbon_intensity
  let sp : String × ℚ :=
    if carbon_intensity > 200 then ("Dynamic Moderation", 35/2)
    else if carbon_intensity < 100 then ("Demand Turn Up", 12)
    else ("Dynamic Containment", 19/2)
  { service_type := sp.1
    capacity_offered_mw := roundTo2 total_capacity_mw
    revenue_gbp_per_hour := roundTo2 (total_capacity_mw * sp.2)
    clearing_price_gbp_mw_h := sp.2
    response_time_seconds := 1/20
    p415_compliant := decide ((1/20 : ℚ) < 2)
    grid_carbon_intensity := carbon_intensity
    deferred_jobs_count := deferred_jobs.length }

/-- Market condition enum of grid_agent.py lines 31-37. -/
inductive MarketCondition where
  | optimal
  | good
  | moderate
  | poor
  | critical
deriving DecidableEq, Repr

/-- `assess_market_condition` (grid_agent.py lines 222-259): favourability
flags compare the raw values against the thresholds, the optimal and
critical refinements compare the value/threshold quotients against 0.5
and 1.5. -/
def assess_market_condition (carbon_threshold price_threshold
    carbon_intensity energy_price : ℚ) : MarketCondition :=
  if carbon_intensity ≤ carbon_threshold ∧ energy_price ≤ price_threshold then
    if carbon_intensity / carbon_threshold < 1/2 ∧
        energy_price / price_threshold < 1/2 then
      MarketCondition.optimal
    else MarketCondition.good
  else if carbon_intensity ≤ carbon_threshold ∨ energy_price ≤ price_threshold then
    MarketCondition.moderate
  else if carbon_intensity / carbon_threshold > 3/2 ∨
      energy_price / price_threshold > 3/2 then
    MarketCondition.critical
  else MarketCondition.poor

/-- The precedence-ordered band rules as the spec words them, everything in
terms of the two quotients: optimal when both ≤ 1 and both < 0.5; good when
both ≤ 1; moderate when exactly one ≤ 1; critical when neither ≤ 1 and
either > 1.5; poor otherwise. Stated for comparison with
`assess_market_condition`. -/
def claimMarketBands (carbon_threshold price_threshold
    carbon_intensity energy_price : ℚ) : MarketCondition :=
  let cq := carbon_intensity / carbon_threshold
  let pq := energy_price / price_threshold
  if cq ≤ 1 ∧ pq ≤ 1 ∧ cq < 1/2 ∧ pq < 1/2 then MarketCondition.optimal
  else if cq ≤ 1 ∧ pq ≤ 1 then MarketCondition.good
  else if (cq ≤ 1 ∧ ¬ pq ≤ 1) ∨ (¬ cq ≤ 1 ∧ pq ≤ 1) then MarketCondition.moderate
  else if cq > 3/2 ∨ pq > 3/2 then MarketCondition.critical
  else MarketCondition.poor

/-! ## Concrete inputs used by witnesses and counterexamples -/

/-- Default engine configuration: thresholds 150 gCO2/kWh, 0.12 £/kWh,
5-minute SLA budget. -/
def cfgEx : AgentConfig :=
  { carbon_threshold := 150, price_threshold := 12/100, sla_response_minutes := 5 }

/-- The deferrable medium-priority 150 kWh job of the worked example. -/
def jobEx : Job :=
  { job_id := "job1", energy_required_kwh := 150, deferrable := true
    max_deferral_hours := 6, priority := "medium" }

/-- A non-deferrable critical 50 kWh job. -/
def jobCrit : Job :=
  { job_id := "job2", energy_required_kwh := 50, deferrable := false
    max_deferral_hours := 0, priority := "critical" }

/-- A non-deferrable but medium-priority job. -/
def jobNonDef : Job :=
  { job_id := "job3", energy_required_kwh := 50, deferrable := false
    max_deferral_hours := 0, priority := "medium" }

/-- A tiny deferrable job of 0.1 kWh. -/
def jobTiny : Job :=
  { job_id := "job4", energy_required_kwh := 1/10, deferrable := true
    max_deferral_hours := 6, priority := "medium" }

/-- Grid snapshot of the worked example: carbon 245, price 0.09, forecast 85. -/
def gridEx : GridData :=
  { carbon_intensity := 245, energy_price := 9/100, forecast_next_hour := some 85 }

/-- High-carbon snapshot whose forecast is present but equals 0. -/
def gridZeroForecast : GridData :=
  { carbon_intensity := 245, energy_price := 9/100, forecast_next_hour := some 0 }

/-- Favourable snapshot: carbon 100 ≤ 150, price 0.10 ≤ 0.12. -/
def gridFav : GridData :=
  { carbon_intensity := 100, energy_price := 1/10, forecast_next_hour := none }

/-- Mid-band snapshot with carbon 150 (neither > 200 nor < 100). -/
def gridMid : GridData :=
  { carbon_intensity := 150, energy_price := 9/100, forecast_next_hour := none }

/-- Snapshot at carbon 220 used by the flexibility-value example. -/
def grid220 : GridData :=
  { carbon_intensity := 220, energy_price := 9/100, forecast_next_hour := none }

/-- A single deferred job totalling 300 kWh. -/
def jobs300 : List Job :=
  [{ job_id := "job5", energy_required_kwh := 300, deferrable := true
     max_deferral_hours := 6, priority := "medium" }]

/-- A concrete decision record for history-query inputs. -/
def decEx : OptimizationDecision :=
  { job_id := "job1", action := OptimizationAction.execute_now
    rationale := DecisionRationale.no_benefit
    current_carbon_intensity := 100, current_energy_price := 1/10
    estimated_cost_savings_gbp := 0, estimated_carbon_reduction_gco2 := 0
    defer_until := none }

/-- The single-element deferred-job list of the tiny job. -/
def jobsTiny : List Job := [jobTiny]

/-- State after one decide call on a fresh agent with a breaching latency of
600000 ms (10 minutes > the 5-minute budget). -/
def stB1 : AgentState :=
  (make_optimization_decision cfgEx initialState jobCrit gridEx 0 600000).2

/-- State after a further decide call on `stB1` with a compliant latency of
0 ms. -/
def stB2 : AgentState :=
  (make_optimization_decision cfgEx stB1 jobCrit gridEx 0 0).2

/-- Bookkeeping invariant tying the metrics counters to the decision log:
the total count equals the log length, the deferred count equals the number
of defer decisions in the log, executed + deferred = total, and the shifted
count is zero. -/
def MetricsInv (st : AgentState) : Prop :=
  st.metrics.total_decisions_made = st.decision_history.length ∧
  st.metrics.jobs_deferred = deferCount st.decision_history ∧
  st.metrics.jobs_executed_immediately + st.metrics.jobs_deferred =
    st.metrics.total_decisions_made ∧
  st.metrics.jobs_shifted = 0

/-! ## Rounding lemmas -/

/-- Rounding ties-to-even preserves nonnegativity. -/
theorem roundHalfEven_nonneg {q : ℚ} (h : 0 ≤ q) : 0 ≤ roundHalfEven q := by
  unfold roundHalfEven
  split_ifs with h1 h2
  · exact Int.floor_nonneg.mpr h
  · have := Int.floor_nonneg.mpr h
    omega
  · rw [round_eq]
    have h3 : (0:ℚ) ≤ q + 1/2 := by linarith
    have h4 : ⌊(0:ℚ)⌋ ≤ ⌊q + 1/2⌋ := Int.floor_le_floor h3
    simpa using h4

/-- Rounding ties-to-even preserves nonpositivity. -/
theorem roundHalfEven_nonpos {q : ℚ} (h : q ≤ 0) : roundHalfEven q ≤ 0 := by
  unfold roundHalfEven
  split_ifs with h1 h2
  · exact Int.floor_nonpos h
  · have hq : q = (⌊q⌋ : ℚ) + 1/2 := by linarith [h1]
    have hne : ⌊q⌋ ≠ 0 := by
      intro h0
      rw [h0] at hq
      norm_num at hq
      linarith [h, hq]
    have := Int.floor_nonpos h
    omega
  · rw [round_eq]
    have h3 : q + 1/2 ≤ 1/2 := by linarith
    have h4 : ⌊q + 1/2⌋ ≤ ⌊(1:ℚ)/2⌋ := Int.floor_le_floor h3
    have h5 : ⌊(1:ℚ)/2⌋ = 0 := by norm_num [Int.floor_eq_iff]
    omega

/-- `roundTo2` preserves nonnegativity. -/
theorem roundTo2_nonneg {q : ℚ} (h : 0 ≤ q) : 0 ≤ roundTo2 q := by
  unfold roundTo2
  have h1 : (0:ℤ) ≤ roundHalfEven (q * 100) :=
    roundHalfEven_nonneg (by positivity)
  positivity

/-- `roundTo2` preserves nonpositivity. -/
theorem roundTo2_nonpos {q : ℚ} (h : q ≤ 0) : roundTo2 q ≤ 0 := by
  unfold roundTo2
  have h1 : roundHalfEven (q * 100) ≤ 0 :=
    roundHalfEven_nonpos (by nlinarith)
  have h2 : ((roundHalfEven (q * 100) : ℚ)) ≤ 0 := by exact_mod_cast h1
  linarith

/-- Clamping to zero commutes with `roundTo2`. -/
theorem max_roundTo2 (q : ℚ) : max 0 (roundTo2 q) = roundTo2 (max 0 q) := by
  rcases le_total q 0 with h | h
  · rw [max_eq_left (roundTo2_nonpos h), max_eq_left h]
    unfold roundTo2 roundHalfEven
    norm_num
  · rw [max_eq_right (roundTo2_nonneg h), max_eq_right h]

/-- Evaluate `roundTo2` when the scaled argument is exactly an integer. -/
theorem roundTo2_of_mul_int (q : ℚ) (n : ℤ) (h : q * 100 = (n:ℚ)) :
    roundTo2 q = (n:ℚ) / 100 := by
  unfold roundTo2 roundHalfEven
  rw [h, Int.floor_intCast, sub_self]
  norm_num [round_intCast]

/-- `roundTo2` of a small nonnegative value (scaled argument below 1/2)
rounds down to 0. -/
theorem roundTo2_small (q : ℚ) (h0 : 0 ≤ q) (h1 : q * 100 < 1/2) :
    roundTo2 q = 0 := by
  unfold roundTo2 roundHalfEven
  have hf : ⌊q * 100⌋ = 0 :=
    Int.floor_eq_zero_iff.mpr (Set.mem_Ico.mpr ⟨by positivity, by linarith⟩)
  rw [hf]
  rw [if_neg (by push_cast; intro hx; linarith)]
  have hr : round (q * 100) = 0 := by
    rw [round_eq]
    exact Int.floor_eq_zero_iff.mpr
      (Set.mem_Ico.mpr ⟨by positivity, by linarith⟩)
  rw [hr]
  norm_num

/-- Evaluate `calculate_carbon_reduction` at inputs whose scaled delta is an
integer. -/
theorem calc_carbon_eval (e cc oc r : ℚ) (n : ℤ)
    (h : (e * cc - e * oc) * 100 = (n:ℚ)) (hn : 0 ≤ n) (hr : (n:ℚ) / 100 = r) :
    calculate_carbon_reduction e cc oc = r := by
  unfold calculate_carbon_reduction
  rw [roundTo2_of_mul_int _ n h,
    max_eq_right (div_nonneg (by exact_mod_cast hn) (by norm_num)), hr]

/-- Evaluate `calculate_cost_savings` at inputs whose scaled delta is an
integer. -/
theorem calc_cost_eval (e cp op r : ℚ) (n : ℤ)
    (h : (e * cp - e * op) * 100 = (n:ℚ)) (hn : 0 ≤ n) (hr : (n:ℚ) / 100 = r) :
    calculate_cost_savings e cp op = r := by
  unfold calculate_cost_savings
  rw [roundTo2_of_mul_int _ n h,
    max_eq_right (div_nonneg (by exact_mod_cast hn) (by norm_num)), hr]



/-! ## Claim theorems -/

/-- C1: for every job with deferrable=false or priority=critical and every
grid snapshot (and any timestamp and latency), `make_optimization_decision`
returns action=execute_now, rationale=sla_critical, zero estimated cost
savings and zero estimated carbon reduction. -/
theorem sla_critical_decision (cfg : AgentConfig) (st : AgentState) (job : Job)
    (grid : GridData) (now lat : ℚ)
    (h : job.deferrable = false ∨ job.priority = "critical") :
    (make_optimization_decision cfg st job grid now lat).1.action =
      OptimizationAction.execute_now ∧
    (make_optimization_decision cfg st job grid now lat).1.rationale =
      DecisionRationale.sla_critical ∧
    (make_optimization_decision cfg st job grid now lat).1.estimated_cost_savings_gbp = 0 ∧
    (make_optimization_decision cfg st job grid now lat).1.estimated_carbon_reduction_gco2 = 0 := by
  have hmk : (make_optimization_decision cfg st job grid now lat).1 =
      (decideCore cfg st.metrics job grid now).1 := rfl
  rw [hmk]
  unfold decideCore
  rw [if_pos h]
  exact ⟨rfl, rfl, rfl, rfl⟩

/-- C1 witness: the critical non-deferrable 50 kWh job under the high-carbon
example snapshot. -/
theorem sla_critical_decision_witness :
    (jobCrit.deferrable = false ∨ jobCrit.priority = "critical") ∧
    ((make_optimization_decision cfgEx initialState jobCrit gridEx 0 0).1.action =
        OptimizationAction.execute_now ∧
     (make_optimization_decision cfgEx initialState jobCrit gridEx 0 0).1.rationale =
        DecisionRationale.sla_critical ∧
     (make_optimization_decision cfgEx initialState jobCrit gridEx 0 0).1.estimated_cost_savings_gbp = 0 ∧
     (make_optimization_decision cfgEx initialState jobCrit gridEx 0 0).1.estimated_carbon_reduction_gco2 = 0) :=
  ⟨Or.inl rfl, sla_critical_decision cfgEx initialState jobCrit gridEx 0 0 (Or.inl rfl)⟩

/-- C2 counterexample: a non-deferrable medium-priority job under favourable
grid conditions (carbon 100 ≤ 150, price 0.10 ≤ 0.12) receives
rationale=sla_critical from rule 1, not rationale=optimal_conditions. -/
theorem favorable_unqualified_cex :
    gridFav.carbon_intensity ≤ cfgEx.carbon_threshold ∧
    gridFav.energy_price ≤ cfgEx.price_threshold ∧
    (make_optimization_decision cfgEx initialState jobNonDef gridFav 0 0).1.rationale =
      DecisionRationale.sla_critical ∧
    (make_optimization_decision cfgEx initialState jobNonDef gridFav 0 0).1.rationale ≠
      DecisionRationale.optimal_conditions := by
  refine ⟨by norm_num [gridFav, cfgEx], by norm_num [gridFav, cfgEx], rfl, ?_⟩
  intro h
  rw [show (make_optimization_decision cfgEx initialState jobNonDef gridFav 0 0).1.rationale =
      DecisionRationale.sla_critical from rfl] at h
  exact absurd h (by decide)

/-- C2 amended: for every deferrable, non-critical job, whenever the grid
state is favourable (carbon ≤ carbon_threshold and price ≤ price_threshold),
`make_optimization_decision` returns action=execute_now with
rationale=optimal_conditions. -/
theorem favorable_conditions_decision (cfg : AgentConfig) (st : AgentState)
    (job : Job) (grid : GridData) (now lat : ℚ)
    (hd : job.deferrable = true) (hp : job.priority ≠ "critical")
    (hc : grid.carbon_intensity ≤ cfg.carbon_threshold)
    (hpr : grid.energy_price ≤ cfg.price_threshold) :
    (make_optimization_decision cfg st job grid now lat).1.action =
      OptimizationAction.execute_now ∧
    (make_optimization_decision cfg st job grid now lat).1.rationale =
      DecisionRationale.optimal_conditions := by
  have hmk : (make_optimization_decision cfg st job grid now lat).1 =
      (decideCore cfg st.metrics job grid now).1 := rfl
  rw [hmk]
  unfold decideCore
  rw [if_neg (by simp [hd, hp]), if_pos ⟨hc, hpr⟩]
  exact ⟨rfl, rfl⟩

/-- C2 amended witness: the deferrable medium-priority 150 kWh job under the
favourable snapshot. -/
theorem favorable_conditions_decision_witness :
    jobEx.deferrable = true ∧ jobEx.priority ≠ "critical" ∧
    gridFav.carbon_intensity ≤ cfgEx.carbon_threshold ∧
    gridFav.energy_price ≤ cfgEx.price_threshold ∧
    ((make_optimization_decision cfgEx initialState jobEx gridFav 0 0).1.action =
        OptimizationAction.execute_now ∧
     (make_optimization_decision cfgEx initialState jobEx gridFav 0 0).1.rationale =
        DecisionRationale.optimal_conditions) :=
  ⟨rfl, by decide, by norm_num [gridFav, cfgEx], by norm_num [gridFav, cfgEx],
   favorable_conditions_decision cfgEx initialState jobEx gridFav 0 0 rfl
     (by decide) (by norm_num [gridFav, cfgEx]) (by norm_num [gridFav, cfgEx])⟩

/-- C4: both savings functions compute max(0, energy × delta) rounded to two
decimals (clamping and rounding commute), and both results are always
nonnegative. -/
theorem savings_estimator_spec (e cp op cc oc : ℚ) :
    calculate_cost_savings e cp op = roundTo2 (max 0 (e * (cp - op))) ∧
    0 ≤ calculate_cost_savings e cp op ∧
    calculate_carbon_reduction e cc oc = roundTo2 (max 0 (e * (cc - oc))) ∧
    0 ≤ calculate_carbon_reduction e cc oc := by
  unfold calculate_cost_savings calculate_carbon_reduction
  refine ⟨?_, le_max_left 0 _, ?_, le_max_left 0 _⟩
  · have h1 : e * cp - e * op = e * (cp - op) := by ring
    rw [h1, max_roundTo2]
  · have h2 : e * cc - e * oc = e * (cc - oc) := by ring
    rw [h2, max_roundTo2]

/-- C3 counterexample: with a forecast that is provided but equal to 0
(job deferrable, non-critical, carbon 245 > threshold 150), the code falls
back to current_carbon × 0.5 (reduction 150 × 122.5 = 18375), not to the
provided forecast value 0 (which would give 150 × 245 = 36750). -/
theorem high_carbon_zero_forecast_cex :
    gridZeroForecast.forecast_next_hour = some 0 ∧
    jobEx.deferrable = true ∧ jobEx.priority ≠ "critical" ∧
    gridZeroForecast.carbon_intensity > cfgEx.carbon_threshold ∧
    (make_optimization_decision cfgEx initialState jobEx gridZeroForecast 0 0).1.estimated_carbon_reduction_gco2 = 18375 ∧
    calculate_carbon_reduction jobEx.energy_required_kwh
      gridZeroForecast.carbon_intensity 0 = 36750 ∧
    (make_optimization_decision cfgEx initialState jobEx gridZeroForecast 0 0).1.estimated_carbon_reduction_gco2 ≠
      calculate_carbon_reduction jobEx.energy_required_kwh
        gridZeroForecast.carbon_intensity 0 := by
  have e1 : calculate_carbon_reduction jobEx.energy_required_kwh
      gridZeroForecast.carbon_intensity (gridZeroForecast.carbon_intensity * (1/2)) = 18375 :=
    calc_carbon_eval _ _ _ _ 1837500 (by norm_num [jobEx, gridZeroForecast])
      (by norm_num) (by norm_num)
  have hv : (make_optimization_decision cfgEx initialState jobEx gridZeroForecast 0 0).1.estimated_carbon_reduction_gco2 = 18375 := by
    have hmk : (make_optimization_decision cfgEx initialState jobEx gridZeroForecast 0 0).1 =
        (decideCore cfgEx initialState.metrics jobEx gridZeroForecast 0).1 := rfl
    rw [hmk]
    unfold decideCore
    rw [if_neg (by simp [jobEx]), if_neg (by norm_num [gridZeroForecast, cfgEx]),
        if_pos (by norm_num [gridZeroForecast, cfgEx, jobEx])]
    exact e1
  have hs : calculate_carbon_reduction jobEx.energy_required_kwh
      gridZeroForecast.carbon_intensity 0 = 36750 :=
    calc_carbon_eval _ _ _ _ 3675000 (by norm_num [jobEx, gridZeroForecast])
      (by norm_num) (by norm_num)
  refine ⟨rfl, rfl, by simp [jobEx], by norm_num [gridZeroForecast, cfgEx], hv, hs, ?_⟩
  rw [hv, hs]
  norm_num

/-- C3 amended: for every deferrable, non-critical job under carbon above
threshold, the decision is defer with rationale=high_carbon; the
optimal-window carbon equals forecast_next_period when a nonzero forecast is
provided and current_carbon × 0.5 otherwise, the optimal-window price equals
current_price × 0.7, savings come from the savings estimator at those
values, and defer_until = now + min(6, max_deferral_hours) hours. -/
theorem high_carbon_defer_decision (cfg : AgentConfig) (st : AgentState)
    (job : Job) (grid : GridData) (now lat : ℚ)
    (hd : job.deferrable = true) (hp : job.priority ≠ "critical")
    (hc : grid.carbon_intensity > cfg.carbon_threshold) :
    (make_optimization_decision cfg st job grid now lat).1.action =
      OptimizationAction.defer ∧
    (make_optimization_decision cfg st job grid now lat).1.rationale =
      DecisionRationale.high_carbon ∧
    (make_optimization_decision cfg st job grid now lat).1.estimated_carbon_reduction_gco2 =
      calculate_carbon_reduction job.energy_required_kwh grid.carbon_intensity
        (match grid.forecast_next_hour with
         | some f => if f = 0 then grid.carbon_intensity * (1/2) else f
         | none => grid.carbon_intensity * (1/2)) ∧
    (make_optimization_decision cfg st job grid now lat).1.estimated_cost_savings_gbp =
      calculate_cost_savings job.energy_required_kwh grid.energy_price
        (grid.energy_price * (7/10)) ∧
    (make_optimization_decision cfg st job grid now lat).1.defer_until =
      some (now + min 6 job.max_deferral_hours) := by
  have hmk : (make_optimization_decision cfg st job grid now lat).1 =
      (decideCore cfg st.metrics job grid now).1 := rfl
  rw [hmk]
  unfold decideCore
  have hnf : ¬ (grid.carbon_intensity ≤ cfg.carbon_threshold ∧
      grid.energy_price ≤ cfg.price_threshold) := by
    intro hx
    exact absurd hx.1 (not_le.mpr hc)
  rw [if_neg (by simp [hd, hp]), if_neg hnf, if_pos ⟨hc, by rw [hd]⟩]
  exact ⟨rfl, rfl, rfl, rfl, rfl⟩

/-- C3 witness: the worked example — 150 kWh deferrable medium job, carbon
245 with forecast 85, price 0.09, thresholds 150/0.12, now = 0 — defers with
carbon reduction 150 × (245 − 85) = 24000 g, cost savings 4.05 and
defer_until = 0 + min(6, 6) = 6 hours. -/
theorem high_carbon_defer_decision_witness :
    jobEx.deferrable = true ∧ jobEx.priority ≠ "critical" ∧
    gridEx.carbon_intensity > cfgEx.carbon_threshold ∧
    (make_optimization_decision cfgEx initialState jobEx gridEx 0 0).1.action =
      OptimizationAction.defer ∧
    (make_optimization_decision cfgEx initialState jobEx gridEx 0 0).1.rationale =
      DecisionRationale.high_carbon ∧
    (make_optimization_decision cfgEx initialState jobEx gridEx 0 0).1.estimated_carbon_reduction_gco2 = 24000 ∧
    (make_optimization_decision cfgEx initialState jobEx gridEx 0 0).1.estimated_cost_savings_gbp = 405/100 ∧
    (make_optimization_decision cfgEx initialState jobEx gridEx 0 0).1.defer_until = some 6 := by
  have h := high_carbon_defer_decision cfgEx initialState jobEx gridEx 0 0
    rfl (by simp [jobEx]) (by norm_num [gridEx, cfgEx])
  refine ⟨rfl, by simp [jobEx], by norm_num [gridEx, cfgEx], h.1, h.2.1, ?_, ?_, ?_⟩
  · rw [h.2.2.1]
    exact calc_carbon_eval _ _ _ _ 2400000 (by norm_num [jobEx, gridEx])
      (by norm_num) (by norm_num)
  · rw [h.2.2.2.1]
    exact calc_cost_eval _ _ _ _ 405 (by norm_num [jobEx, gridEx])
      (by norm_num) (by norm_num)
  · rw [h.2.2.2.2]
    norm_num [jobEx]

/-- The rule cascade never touches the compliance rate or the decision
counter; they are updated only in the common epilogue. -/
theorem decideCore_rate (cfg : AgentConfig) (m : OrchestratorMetrics)
    (job : Job) (grid : GridData) (now : ℚ) :
    (decideCore cfg m job grid now).2.sla_compliance_rate = m.sla_compliance_rate ∧
    (decideCore cfg m job grid now).2.total_decisions_made = m.total_decisions_made := by
  unfold decideCore
  split_ifs <;> exact ⟨rfl, rfl⟩

/-- Per-step bookkeeping facts of one `make_optimization_decision` call: the
action is execute_now or defer, the decision is appended to the history, the
total count grows by one, the shifted count is untouched, and exactly one of
the deferred/executed tallies grows by one according to the action. -/
theorem make_step (cfg : AgentConfig) (st : AgentState) (job : Job)
    (grid : GridData) (now lat : ℚ) :
    ((make_optimization_decision cfg st job grid now lat).1.action =
        OptimizationAction.execute_now ∨
     (make_optimization_decision cfg st job grid now lat).1.action =
        OptimizationAction.defer) ∧
    (make_optimization_decision cfg st job grid now lat).2.decision_history =
      st.decision_history ++ [(make_optimization_decision cfg st job grid now lat).1] ∧
    (make_optimization_decision cfg st job grid now lat).2.metrics.total_decisions_made =
      st.metrics.total_decisions_made + 1 ∧
    (make_optimization_decision cfg st job grid now lat).2.metrics.jobs_shifted =
      st.metrics.jobs_shifted ∧
    (make_optimization_decision cfg st job grid now lat).2.metrics.jobs_deferred =
      st.metrics.jobs_deferred +
        (if (make_optimization_decision cfg st job grid now lat).1.action =
            OptimizationAction.defer then 1 else 0) ∧
    (make_optimization_decision cfg st job grid now lat).2.metrics.jobs_executed_immediately =
      st.metrics.jobs_executed_immediately +
        (if (make_optimization_decision cfg st job grid now lat).1.action =
            OptimizationAction.defer then 0 else 1) := by
  simp only [make_optimization_decision]
  unfold decideCore
  split_ifs <;> simp_all

/-- One decide call preserves the bookkeeping invariant. -/
theorem step_inv (cfg : AgentConfig) (st : AgentState) (i : StepInput)
    (h : MetricsInv st) :
    MetricsInv (make_optimization_decision cfg st i.job i.grid i.now i.latency_ms).2 := by
  obtain ⟨h1, h2, h3, h4⟩ := h
  obtain ⟨ha, hh, ht, hsh, hd, he⟩ := make_step cfg st i.job i.grid i.now i.latency_ms
  refine ⟨?_, ?_, ?_, ?_⟩
  · rw [ht, hh, List.length_append, h1]
    simp
  · rw [hd, hh]
    unfold deferCount at h2 ⊢
    rw [List.countP_append, h2]
    simp [List.countP_cons, List.countP_nil]
  · rw [he, hd, ht]
    split_ifs <;> omega
  · rw [hsh, h4]

/-- The bookkeeping invariant is preserved by any sequence of decide calls. -/
theorem runDecisions_inv (cfg : AgentConfig) :
    ∀ (l : List StepInput) (st : AgentState), MetricsInv st →
      MetricsInv (runDecisions cfg st l) := by
  intro l
  induction l with
  | nil => intro st h; exact h
  | cons a t ih =>
      intro st h
      rw [show runDecisions cfg st (a :: t) =
          runDecisions cfg
            (make_optimization_decision cfg st a.job a.grid a.now a.latency_ms).2 t
          from rfl]
      exact ih _ (step_inv cfg st a h)

/-- Each decide call appends exactly one decision to the history. -/
theorem runDecisions_history_length (cfg : AgentConfig) :
    ∀ (l : List StepInput) (st : AgentState),
      (runDecisions cfg st l).decision_history.length =
        st.decision_history.length + l.length := by
  intro l
  induction l with
  | nil => intro st; simp [runDecisions]
  | cons a t ih =>
      intro st
      rw [show runDecisions cfg st (a :: t) =
          runDecisions cfg
            (make_optimization_decision cfg st a.job a.grid a.now a.latency_ms).2 t
          from rfl]
      rw [ih]
      rw [(make_step cfg st a.job a.grid a.now a.latency_ms).2.1, List.length_append]
      simp
      omega

/-- A fresh agent satisfies the bookkeeping invariant. -/
theorem initialState_inv : MetricsInv initialState := by
  refine ⟨rfl, rfl, rfl, rfl⟩

set_option maxHeartbeats 1000000 in
/-- C5: for positive thresholds the classifier returns exactly the band
given by the spec's precedence-ordered ratio rules, and it is a pure
function of its inputs (two calls with identical inputs agree). -/
theorem assess_eq_claim_bands (cth pth c p : ℚ) (hc : 0 < cth) (hp : 0 < pth) :
    assess_market_condition cth pth c p = claimMarketBands cth pth c p ∧
    assess_market_condition cth pth c p = assess_market_condition cth pth c p := by
  refine ⟨?_, rfl⟩
  have h1 : c / cth ≤ 1 ↔ c ≤ cth := div_le_one hc
  have h2 : p / pth ≤ 1 ↔ p ≤ pth := div_le_one hp
  unfold assess_market_condition claimMarketBands
  simp only [h1, h2]
  split_ifs <;> first | rfl | tauto

/-- C5 witness: thresholds 150 and 0.12 with carbon 100 and price 0.05. -/
theorem assess_eq_claim_bands_witness :
    (0:ℚ) < 150 ∧ (0:ℚ) < 12/100 ∧
    assess_market_condition 150 (12/100) 100 (1/20) =
      claimMarketBands 150 (12/100) 100 (1/20) :=
  ⟨by norm_num, by norm_num,
   (assess_eq_claim_bands 150 (12/100) 100 (1/20) (by norm_num) (by norm_num)).1⟩

/-- C6 counterexample: starting fresh, a breaching call (600000 ms latency)
drives the compliance rate to 0; a subsequent compliant call (0 ms) leaves
the rate at 0 instead of folding in 100, which would give
(0 × (2−1) + 100) / 2 = 50. -/
theorem sla_rate_not_folded_cex :
    ¬ ((0:ℚ) / 1000 / 60 > cfgEx.sla_response_minutes) ∧
    stB1.metrics.sla_compliance_rate = 0 ∧
    stB2.metrics.total_decisions_made = 2 ∧
    stB2.metrics.sla_compliance_rate = 0 ∧
    stB2.metrics.sla_compliance_rate ≠
      (stB1.metrics.sla_compliance_rate * ((2:ℚ) - 1) + 100) / 2 := by
  have h1 : stB1.metrics.sla_compliance_rate = 0 := by
    norm_num [stB1, make_optimization_decision, decideCore, initialState,
      initMetrics, cfgEx, jobCrit, gridEx]
  have h2 : stB2.metrics.total_decisions_made = 2 := by
    norm_num [stB2, stB1, make_optimization_decision, decideCore, initialState,
      initMetrics, cfgEx, jobCrit, gridEx]
  have h3 : stB2.metrics.sla_compliance_rate = 0 := by
    norm_num [stB2, stB1, make_optimization_decision, decideCore, initialState,
      initMetrics, cfgEx, jobCrit, gridEx]
  refine ⟨by norm_num [cfgEx], h1, h2, h3, ?_⟩
  rw [h1, h3]
  norm_num

/-- C6 amended: after a decide call the compliance rate is updated only when
the measured latency breaches the SLA budget, folding in 0 via
rate' = (rate × (n−1) + 0) / n with n the new total; a compliant decision
leaves the rate unchanged. -/
theorem sla_rate_update (cfg : AgentConfig) (st : AgentState) (job : Job)
    (grid : GridData) (now lat : ℚ) :
    (lat / 1000 / 60 > cfg.sla_response_minutes →
      (make_optimization_decision cfg st job grid now lat).2.metrics.sla_compliance_rate =
        (st.metrics.sla_compliance_rate * (st.metrics.total_decisions_made : ℚ) + 0) /
          ((st.metrics.total_decisions_made : ℚ) + 1)) ∧
    (¬ (lat / 1000 / 60 > cfg.sla_response_minutes) →
      (make_optimization_decision cfg st job grid now lat).2.metrics.sla_compliance_rate =
        st.metrics.sla_compliance_rate) := by
  have hd := decideCore_rate cfg st.metrics job grid now
  constructor
  · intro hbr
    simp only [make_optimization_decision]
    rw [if_pos hbr]
    simp only [hd.1, hd.2]
    push_cast
    ring
  · intro hnb
    simp only [make_optimization_decision]
    rw [if_neg hnb]
    simp only [hd.1]

/-- C6 amended witness: a breaching first call on a fresh agent updates the
rate to (100 × 0 + 0) / 1. -/
theorem sla_rate_update_witness :
    ((600000:ℚ) / 1000 / 60 > cfgEx.sla_response_minutes) ∧
    (make_optimization_decision cfgEx initialState jobCrit gridEx 0 600000).2.metrics.sla_compliance_rate =
      (initialState.metrics.sla_compliance_rate *
          (initialState.metrics.total_decisions_made : ℚ) + 0) /
        ((initialState.metrics.total_decisions_made : ℚ) + 1) :=
  ⟨by norm_num [cfgEx],
   (sla_rate_update cfgEx initialState jobCrit gridEx 0 600000).1
     (by norm_num [cfgEx])⟩

/-- C7 counterexample: a single deferred job of 0.1 kWh gives an exact
capacity of 0.0001 MW, but the returned capacity field is rounded to two
decimals and reads 0, so the returned capacity does not equal
Σ(energy)/1000. -/
theorem p415_capacity_rounded_cex :
    jobsTiny ≠ [] ∧
    ((jobsTiny.map (fun j => j.energy_required_kwh)).sum / 1000 : ℚ) = 1/10000 ∧
    (calculate_p415_flexibility_value jobsTiny gridMid).capacity_offered_mw = 0 ∧
    (calculate_p415_flexibility_value jobsTiny gridMid).capacity_offered_mw ≠
      (jobsTiny.map (fun j => j.energy_required_kwh)).sum / 1000 := by
  have hcap : (calculate_p415_flexibility_value jobsTiny gridMid).capacity_offered_mw =
      roundTo2 ((jobsTiny.map (fun j => j.energy_required_kwh)).sum / 1000) := rfl
  have hsum : ((jobsTiny.map (fun j => j.energy_required_kwh)).sum / 1000 : ℚ) = 1/10000 := by
    norm_num [jobsTiny, jobTiny]
  have hz : roundTo2 (1/10000 : ℚ) = 0 :=
    roundTo2_small _ (by norm_num) (by norm_num)
  have h0 : (calculate_p415_flexibility_value jobsTiny gridMid).capacity_offered_mw = 0 := by
    rw [hcap, hsum, hz]
  refine ⟨by simp [jobsTiny], hsum, h0, ?_⟩
  rw [h0, hsum]
  norm_num

/-- C7 amended: for every non-empty list of deferred jobs the flexibility
calculation reports capacity = Σ(energy)/1000 rounded to two decimals,
selects the service band on carbon intensity (>200 Dynamic Moderation at
17.50, <100 Demand Turn Up at 12.00, otherwise Dynamic Containment at 9.50),
and reports revenue = (Σ(energy)/1000) × clearing price rounded to two
decimals. -/
theorem p415_flexibility_value (jobs : List Job) (grid : GridData)
    (hne : jobs ≠ []) :
    (calculate_p415_flexibility_value jobs grid).capacity_offered_mw =
      roundTo2 ((jobs.map (fun j => j.energy_required_kwh)).sum / 1000) ∧
    (grid.carbon_intensity > 200 →
      (calculate_p415_flexibility_value jobs grid).service_type = "Dynamic Moderation" ∧
      (calculate_p415_flexibility_value jobs grid).clearing_price_gbp_mw_h = 35/2) ∧
    (¬ grid.carbon_intensity > 200 → grid.carbon_intensity < 100 →
      (calculate_p415_flexibility_value jobs grid).service_type = "Demand Turn Up" ∧
      (calculate_p415_flexibility_value jobs grid).clearing_price_gbp_mw_h = 12) ∧
    (¬ grid.carbon_intensity > 200 → ¬ grid.carbon_intensity < 100 →
      (calculate_p415_flexibility_value jobs grid).service_type = "Dynamic Containment" ∧
      (calculate_p415_flexibility_value jobs grid).clearing_price_gbp_mw_h = 19/2) ∧
    (calculate_p415_flexibility_value jobs grid).revenue_gbp_per_hour =
      roundTo2 (((jobs.map (fun j => j.energy_required_kwh)).sum / 1000) *
        (calculate_p415_flexibility_value jobs grid).clearing_price_gbp_mw_h) := by
  simp only [calculate_p415_flexibility_value]
  split_ifs with h1 h2 <;> simp_all

/-- C7 amended witness: 300 kWh of deferred jobs at carbon 220 select
Dynamic Moderation and yield revenue 0.3 × 17.50 = 5.25. -/
theorem p415_flexibility_value_witness :
    jobs300 ≠ [] ∧
    (calculate_p415_flexibility_value jobs300 grid220).service_type = "Dynamic Moderation" ∧
    (calculate_p415_flexibility_value jobs300 grid220).clearing_price_gbp_mw_h = 35/2 ∧
    (calculate_p415_flexibility_value jobs300 grid220).capacity_offered_mw = 3/10 ∧
    (calculate_p415_flexibility_value jobs300 grid220).revenue_gbp_per_hour = 21/4 := by
  have h := p415_flexibility_value jobs300 grid220 (by simp [jobs300])
  have hsv := h.2.1 (by norm_num [grid220])
  refine ⟨by simp [jobs300], hsv.1, hsv.2, ?_, ?_⟩
  · rw [h.1]
    rw [show ((jobs300.map (fun j => j.energy_required_kwh)).sum / 1000 : ℚ) = 3/10
      from by norm_num [jobs300]]
    rw [roundTo2_of_mul_int _ 30 (by norm_num)]
    norm_num
  · rw [h.2.2.2.2, hsv.2]
    rw [show ((jobs300.map (fun j => j.energy_required_kwh)).sum / 1000 * (35/2) : ℚ) = 21/4
      from by norm_num [jobs300]]
    rw [roundTo2_of_mul_int _ 525 (by norm_num)]
    norm_num

/-- C8: starting from a fresh agent, after any sequence of decide calls the
total decision count equals the number of calls and the deferred count
equals the number of decisions in the log whose action is defer (the log
holds exactly the decisions produced, in order). -/
theorem metrics_counts (cfg : AgentConfig) (inputs : List StepInput) :
    (runDecisions cfg initialState inputs).metrics.total_decisions_made =
      inputs.length ∧
    (runDecisions cfg initialState inputs).metrics.jobs_deferred =
      deferCount (runDecisions cfg initialState inputs).decision_history := by
  have hinv := runDecisions_inv cfg inputs initialState initialState_inv
  have hlen := runDecisions_history_length cfg inputs initialState
  refine ⟨?_, hinv.2.1⟩
  rw [hinv.1, hlen]
  simp [initialState]

/-- C9: evaluation of the limit-zero slice bug — with a one-element history
and limit = 0, `get_recent_decisions` returns the whole history (1 element),
exceeding the supplied limit. -/
theorem recent_decisions_limit_zero_bug :
    (get_recent_decisions [decEx] 0).length = 1 ∧
    ¬ ((get_recent_decisions [decEx] 0).length ≤ 0) := by
  refine ⟨rfl, by norm_num [get_recent_decisions]⟩

/-- C10: every decision's action is execute_now or defer (shift_region and
cancel are never produced), and from a fresh agent the shifted tally stays 0
while executed + deferred = total after every sequence of calls. -/
theorem actions_binary_invariant :
    (∀ (cfg : AgentConfig) (st : AgentState) (job : Job) (grid : GridData)
        (now lat : ℚ),
      (make_optimization_decision cfg st job grid now lat).1.action =
        OptimizationAction.execute_now ∨
      (make_optimization_decision cfg st job grid now lat).1.action =
        OptimizationAction.defer) ∧
    (∀ (cfg : AgentConfig) (inputs : List StepInput),
      (runDecisions cfg initialState inputs).metrics.jobs_shifted = 0 ∧
      (runDecisions cfg initialState inputs).metrics.jobs_executed_immediately +
          (runDecisions cfg initialState inputs).metrics.jobs_deferred =
        (runDecisions cfg initialState inputs).metrics.total_decisions_made) := by
  constructor
  · intro cfg st job grid now lat
    exact (make_step cfg st job grid now lat).1
  · intro cfg inputs
    have hinv := runDecisions_inv cfg inputs initialState initialState_inv
    exact ⟨hinv.2.2.2, hinv.2.2.1⟩

end GridFlex
